import Mathlib

/-!
Shallow embedding of the x402-actions gateway: the token registry and symbol
resolution (src/config.ts), the Jupiter quote amount conversion and route
description (src/lib/jupiter.ts), the token decimals cache, the gasless swap
execution path (src/actions/gasless-swap.ts, src/lib/kora.ts), and the x402
payment middleware (src/lib/x402-middleware.ts).  Strings that travel through
headers and JSON are modelled as byte lists; external collaborators (the JSON
parser builtin, the Kora RPC endpoint, the ledger) are oracles passed as
function arguments.
-/

namespace X402

/-! ## Token registry (src/config.ts) -/

/-- The static token table of `config.tokens`. -/
def configTokens : List (String × String) :=
  [("SOL", "So11111111111111111111111111111111111111112"),
   ("USDC", "EPjFWdd5AufqSSqeM2qN1xzybapC8G4wEGGkZwyTDt1v"),
   ("USDT", "Es9vMFrzaCERmJfrF4H2FYD4KCoNkY11McCe8BenwNYB"),
   ("RAY", "4k3Dyjzvzp8eMZWUXbBCjEvwSkkk59S5iCNLY3QrkX6R"),
   ("JUP", "JUPyiwrYJFskUPiHa7hkeR8VUtAeFoSYbKedZNsDvCN")]

/-- `symbol.toUpperCase()`: character-wise uppercasing. -/
def jsToUpperCase (s : String) : String :=
  ⟨s.data.map Char.toUpper⟩

/-- `config.getTokenMint`: case-insensitive lookup via `symbol.toUpperCase()`. -/
def getTokenMint (symbol : String) : Option String :=
  configTokens.lookup (jsToUpperCase symbol)

/-- JavaScript `a || b` on an optional string: falls through on `undefined`
and on the empty (falsy) string. -/
def jsOrString (o : Option String) (dflt : String) : String :=
  match o with
  | some s => if s.isEmpty then dflt else s
  | none => dflt

/-- Symbol resolution at the call sites in src/actions/swap.ts:
`config.getTokenMint(inputMint) || inputMint`. -/
def resolveMint (s : String) : String :=
  jsOrString (getTokenMint s) s

/-! ## Amount conversion (src/lib/jupiter.ts, `getJupiterQuote` and
`buildJupiterSwapTransaction`).  JavaScript numbers are modelled as exact
rationals. -/

/-- `Math.floor(amount * 10 ** inputDecimals)` (jupiter.ts line 262). -/
def toRawAmount (amount : ℚ) (decimals : ℕ) : ℤ :=
  Int.floor (amount * 10 ^ decimals)

/-- `parseInt(raw) / 10 ** decimals` (jupiter.ts lines 340 to 341). -/
def fromRawAmount (raw : ℤ) (decimals : ℕ) : ℚ :=
  (raw : ℚ) / 10 ^ decimals

/-- The scaled integer printed by `.toFixed(decimals)`: the value rounded
half-up at `decimals` fractional digits, returned at scale `10 ^ decimals`. -/
def toFixedScaled (q : ℚ) (decimals : ℕ) : ℤ :=
  Int.floor (q * 10 ^ decimals + 1 / 2)

/-! ## Route description (src/lib/jupiter.ts lines 344 to 347, 355) -/

/-- The JavaScript filter `(v, i, a) => a.indexOf(v) === i` applied to the
route plan labels: keeps the entry at index `i` exactly when the first
occurrence of its value is at `i`. -/
def jupiterRouteLabels (labels : List String) : List String :=
  (labels.enum.filter fun p => labels.indexOf p.2 == p.1).map Prod.snd

/-- `route.join(' → ') || 'Direct'`. -/
def routeDescription (labels : List String) : String :=
  let route := String.intercalate " → " (jupiterRouteLabels labels)
  if route.isEmpty then "Direct" else route

/-! ## Token decimals cache (src/lib/jupiter.ts lines 184 to 204).
The remote ledger lookup `connection.getParsedAccountInfo` is an oracle
`ledger : String → Option ℕ`; `none` models an account without parsed mint
data (the function throws).  The result triple is (returned value with `none`
for a throw, cache after the call, whether a remote lookup was issued). -/

/-- The statically prefilled `TOKEN_DECIMALS` table. -/
def initialDecimalsCache : List (String × ℕ) :=
  [("So11111111111111111111111111111111111111112", 9),
   ("EPjFWdd5AufqSSqeM2qN1xzybapC8G4wEGGkZwyTDt1v", 6),
   ("Es9vMFrzaCERmJfrF4H2FYD4KCoNkY11McCe8BenwNYB", 6),
   ("4k3Dyjzvzp8eMZWUXbBCjEvwSkkk59S5iCNLY3QrkX6R", 6),
   ("JUPyiwrYJFskUPiHa7hkeR8VUtAeFoSYbKedZNsDvCN", 6)]

/-- The remote branch of `getTokenDecimals`: fetch from the ledger, store on
success (`TOKEN_DECIMALS[mint] = decimals`), throw otherwise. -/
def fetchDecimals (cache : List (String × ℕ)) (ledger : String → Option ℕ)
    (mint : String) : Option ℕ × List (String × ℕ) × Bool :=
  match ledger mint with
  | some d => (some d, (mint, d) :: cache, true)
  | none => (none, cache, true)

/-- `getTokenDecimals`: the guard `if (TOKEN_DECIMALS[mint])` is JavaScript
truthiness, so a cached value of `0` falls through to the remote branch just
like an absent entry. -/
def getTokenDecimals (cache : List (String × ℕ)) (ledger : String → Option ℕ)
    (mint : String) : Option ℕ × List (String × ℕ) × Bool :=
  match cache.lookup mint with
  | some d => if d = 0 then fetchDecimals cache ledger mint else (some d, cache, false)
  | none => fetchDecimals cache ledger mint

/-- A sequence of `n` calls of `getTokenDecimals` for the same mint, threading
the cache and counting how many remote lookups were issued. -/
def decimalsCallSeq : ℕ → List (String × ℕ) → (String → Option ℕ) → String →
    List (String × ℕ) × ℕ
  | 0, c, _, _ => (c, 0)
  | Nat.succ n, c, led, m =>
      let r := getTokenDecimals c led m
      let rest := decimalsCallSeq n r.2.1 led m
      (rest.1, (if r.2.2 then 1 else 0) + rest.2)

/-- The remote branch of the raydium.ts variant of `getTokenDecimals`
(part_004 lines 32 to 37): fetch from the ledger and return the value
directly — there is no `TOKEN_DECIMALS[mint] = decimals` assignment, the
cache is left unchanged. -/
def fetchDecimalsNoStore (cache : List (String × ℕ)) (ledger : String → Option ℕ)
    (mint : String) : Option ℕ × List (String × ℕ) × Bool :=
  match ledger mint with
  | some d => (some d, cache, true)
  | none => (none, cache, true)

/-- The raydium.ts variant of `getTokenDecimals` (part_004 lines 27 to 38):
the same truthiness guard `if (TOKEN_DECIMALS[mint])`, but the fetched value
is never stored. -/
def getTokenDecimalsRaydium (cache : List (String × ℕ)) (ledger : String → Option ℕ)
    (mint : String) : Option ℕ × List (String × ℕ) × Bool :=
  match cache.lookup mint with
  | some d => if d = 0 then fetchDecimalsNoStore cache ledger mint
              else (some d, cache, false)
  | none => fetchDecimalsNoStore cache ledger mint

/-- A sequence of `n` calls of the raydium.ts `getTokenDecimals` variant for
the same mint, threading the cache and counting remote lookups. -/
def decimalsCallSeqRaydium : ℕ → List (String × ℕ) → (String → Option ℕ) → String →
    List (String × ℕ) × ℕ
  | 0, c, _, _ => (c, 0)
  | Nat.succ n, c, led, m =>
      let r := getTokenDecimalsRaydium c led m
      let rest := decimalsCallSeqRaydium n r.2.1 led m
      (rest.1, (if r.2.2 then 1 else 0) + rest.2)

/-! ## Gasless swap execution (src/actions/gasless-swap.ts, lib/kora.ts) -/

/-- The request body shape of the gasless endpoints. -/
structure GaslessSwapRequest where
  inputMint : String
  outputMint : String
  amount : String
  userWallet : String
  slippage : Option ℚ
  feeToken : Option String

/-- Result of the Kora `signAndSendTransaction` RPC (kora.ts lines 101 to 113). -/
structure KoraSendResult where
  signature : String
  signerPubkey : String

/-- Response of `executeGaslessSwap`. -/
structure GaslessSwapResponse where
  signature : String
  explorerUrl : String

/-- `signAndSendWithKora`: a single RPC round trip; the oracle `rpc` returns
`none` when the call throws (transport or RPC error). -/
def signAndSendWithKora (rpc : String → Option KoraSendResult)
    (transaction : String) : Option KoraSendResult :=
  rpc transaction

/-- `executeGaslessSwap` (gasless-swap.ts lines 89 to 100).  The second
component records every transaction blob forwarded to the fee sponsor. -/
def executeGaslessSwap (rpc : String → Option KoraSendResult)
    (request : GaslessSwapRequest) (userSignedTransaction : String) :
    Option GaslessSwapResponse × List String :=
  let result := signAndSendWithKora rpc userSignedTransaction
  (result.map fun r => ⟨r.signature, "https://solscan.io/tx/" ++ r.signature⟩,
   [userSignedTransaction])

/-- `expiresAt: Date.now() + 30000` set by the quote builder
(gasless-swap.ts lines 81 and 144). -/
def quoteExpiresAt (issuedAt : ℤ) : ℤ :=
  issuedAt + 30000

/-! ## Bytes, decimal rendering and base64
(`Buffer.from(...).toString('base64')` in x402-middleware.ts) -/

/-- Byte strings: header values and serialized JSON. -/
abbrev Bytes := List ℕ

/-- UTF-8 bytes of an ASCII string literal. -/
def strBytes (s : String) : Bytes :=
  s.data.map Char.toNat

/-- Decimal digits (ASCII bytes) of a natural number, as `Number.toString()`
produces for integers. -/
def natDigits (n : ℕ) : Bytes :=
  if h : n < 10 then [48 + n] else natDigits (n / 10) ++ [48 + n % 10]
termination_by n
decreasing_by exact Nat.div_lt_self (by omega) (by omega)

/-- Decimal rendering of an integer. -/
def intDigits (n : ℤ) : Bytes :=
  if n < 0 then 45 :: natDigits n.natAbs else natDigits n.toNat

/-- The base64 alphabet. -/
def base64Alphabet : List Char :=
  "ABCDEFGHIJKLMNOPQRSTUVWXYZabcdefghijklmnopqrstuvwxyz0123456789+/".data

/-- Character for a 6-bit group. -/
def charOfSextet (n : ℕ) : Char :=
  base64Alphabet.getD n '='

/-- Inverse alphabet lookup. -/
def sextetOfChar (c : Char) : Option ℕ :=
  if c ∈ base64Alphabet then some (base64Alphabet.indexOf c) else none

/-- Standard base64 encoding of a byte string (three bytes to four chars,
with `=` padding). -/
def base64Encode : Bytes → List Char
  | [] => []
  | [b1] => [charOfSextet (b1 / 4), charOfSextet (b1 % 4 * 16), '=', '=']
  | [b1, b2] => [charOfSextet (b1 / 4), charOfSextet (b1 % 4 * 16 + b2 / 16),
                 charOfSextet (b2 % 16 * 4), '=']
  | b1 :: b2 :: b3 :: rest =>
      charOfSextet (b1 / 4) :: charOfSextet (b1 % 4 * 16 + b2 / 16) ::
      charOfSextet (b2 % 16 * 4 + b3 / 64) :: charOfSextet (b3 % 64) ::
      base64Encode rest

/-- Base64 decoding, inverse of `base64Encode`. -/
def base64Decode : List Char → Option Bytes
  | [] => some []
  | c1 :: c2 :: c3 :: c4 :: rest =>
      if c4 = '=' then
        if rest.isEmpty then
          if c3 = '=' then do
            let s1 ← sextetOfChar c1
            let s2 ← sextetOfChar c2
            pure [s1 * 4 + s2 / 16]
          else do
            let s1 ← sextetOfChar c1
            let s2 ← sextetOfChar c2
            let s3 ← sextetOfChar c3
            pure [s1 * 4 + s2 / 16, s2 % 16 * 16 + s3 / 4]
        else none
      else do
        let s1 ← sextetOfChar c1
        let s2 ← sextetOfChar c2
        let s3 ← sextetOfChar c3
        let s4 ← sextetOfChar c4
        let tail ← base64Decode rest
        pure ((s1 * 4 + s2 / 16) :: (s2 % 16 * 16 + s3 / 4) :: (s3 % 4 * 64 + s4) :: tail)
  | _ => none

/-! ## A JSON value model and `JSON.stringify` (insertion order, as the
middleware builds its objects) -/

/-- JSON values as the middleware constructs them. -/
inductive Json where
  | str (bytes : Bytes)
  | num (n : ℤ)
  | bool (b : Bool)
  | obj (fields : List (Bytes × Json))

/-- String escaping of `JSON.stringify` for the quote (34) and backslash (92)
bytes. -/
def escapeBytes : Bytes → Bytes
  | [] => []
  | b :: rest => (if b = 34 ∨ b = 92 then [92, b] else [b]) ++ escapeBytes rest

mutual

/-- `JSON.stringify` on the modelled values (keys in insertion order). -/
def serializeJson : Json → Bytes
  | .str s => 34 :: (escapeBytes s ++ [34])
  | .num n => intDigits n
  | .bool b => if b then strBytes "true" else strBytes "false"
  | .obj fields => 123 :: (serializeFields fields ++ [125])

/-- Comma-separated `"key":value` list. -/
def serializeFields : List (Bytes × Json) → Bytes
  | [] => []
  | [(k, v)] => 34 :: (escapeBytes k ++ [34, 58] ++ serializeJson v)
  | (k, v) :: rest =>
      34 :: (escapeBytes k ++ [34, 58] ++ serializeJson v ++
        (44 :: serializeFields rest))

end

/-- Field lookup in a JSON object. -/
def jsonLookup (j : Json) (key : Bytes) : Option Json :=
  match j with
  | .obj fields => fields.lookup key
  | _ => none

mutual

/-- All bytes inside the value (strings and keys) are genuine bytes. -/
def jsonValid : Json → Bool
  | .str s => s.all (· < 256)
  | .num _ => true
  | .bool _ => true
  | .obj fields => jsonFieldsValid fields

/-- Byte-validity for a field list. -/
def jsonFieldsValid : List (Bytes × Json) → Bool
  | [] => true
  | (k, v) :: rest => k.all (· < 256) && jsonValid v && jsonFieldsValid rest

end

/-! ## x402 payment middleware (src/lib/x402-middleware.ts) -/

/-- A priced route entry of the middleware configuration. -/
structure RoutePrice where
  usdCents : ℚ
  description : Bytes

/-- The middleware configuration plus the `KORA_FEE_PAYER` environment value
read at line 53. -/
structure X402Config where
  payTo : Bytes
  routes : List (Bytes × RoutePrice)
  koraFeePayerEnv : Option Bytes

/-- JavaScript truthiness of an optional string: `undefined` and the empty
string are falsy. -/
def jsTruthyBytes : Option Bytes → Bool
  | some b => !b.isEmpty
  | none => false

/-- The USDC mint constant of the middleware. -/
def usdcMintBytes : Bytes :=
  strBytes "EPjFWdd5AufqSSqeM2qN1xzybapC8G4wEGGkZwyTDt1v"

/-- `Math.ceil(priceConfig.usdCents * Math.pow(10, USDC_DECIMALS) / 100)`
(line 41). -/
def amountAtomicUnits (usdCents : ℚ) : ℤ :=
  Int.ceil (usdCents * 10 ^ 6 / 100)

/-- The `paymentRequirements` object built at lines 43 to 55, in insertion
order. -/
def challengeJson (cfg : X402Config) (price : RoutePrice) : Json :=
  .obj [(strBytes "x402Version", .num 1),
        (strBytes "scheme", .str (strBytes "exact")),
        (strBytes "network", .str (strBytes "solana")),
        (strBytes "payTo", .str cfg.payTo),
        (strBytes "amount", .str (intDigits (amountAtomicUnits price.usdCents))),
        (strBytes "asset", .str usdcMintBytes),
        (strBytes "description", .str price.description),
        (strBytes "maxTimeoutSeconds", .num 60),
        (strBytes "extra", .obj [(strBytes "feePayer",
          .str (if jsTruthyBytes cfg.koraFeePayerEnv then cfg.koraFeePayerEnv.getD []
                else cfg.payTo))])]

/-- The `X-Payment-Response` body at lines 121 to 124; `JSON.stringify` drops
an `undefined` signature. -/
def successJson (signature : Option Bytes) : Json :=
  .obj ((strBytes "success", .bool true) ::
    (match signature with
     | some s => [(strBytes "transactionHash", .str s)]
     | none => []))

/-- The two fields of the decoded payment header the middleware reads
(line 76). -/
structure PaymentPayload where
  payloadTransaction : Option Bytes
  transaction : Option Bytes

/-- `paymentPayload.payload?.transaction || paymentPayload.transaction`. -/
def jsExtractTx (p : PaymentPayload) : Option Bytes :=
  if jsTruthyBytes p.payloadTransaction then p.payloadTransaction else p.transaction

/-- Outcome of the `signAndSendTransaction` fetch at lines 86 to 103:
a JSON body with a `result`, a JSON body with an `error`, or a rejected
fetch / non-JSON body (which throws into the catch at line 127). -/
inductive KoraRpcOutcome where
  | ok (signature : Option Bytes)
  | rpcError (message : Bytes)
  | transportFail

/-- The parts of an inbound request the middleware reads. -/
structure MwRequest where
  method : Bytes
  path : Bytes
  paymentHeader : Option Bytes

/-- The receipt attached as `req.x402Payment` (lines 114 to 118). -/
structure PaymentReceipt where
  transactionHash : Option Bytes
  network : Bytes
  amount : ℚ

/-- Observable outcome of one middleware run: response status set by the
middleware itself (`none` when it passes through), number of `next()` calls,
receipts attached, settlement attempts and successes, the blob submitted to
Kora, and the two payment headers. -/
structure MwOutcome where
  status : Option ℕ
  handlerCalls : ℕ
  receipts : ℕ
  settleAttempts : ℕ
  settleSuccesses : ℕ
  settledBlob : Option Bytes
  receipt : Option PaymentReceipt
  challengeHeader : Option (List Char)
  paymentResponseHeader : Option (List Char)

/-- `"METHOD path"` route key (line 29). -/
def routeKey (req : MwRequest) : Bytes :=
  req.method ++ strBytes " " ++ req.path

/-- The middleware handler returned by `x402Middleware(config)`.
`parseEvidence` is the builtin `JSON.parse` composed with the base64 buffer
decode (lines 72 to 74), projected to the two fields read; `none` models a
parse throw.  `kora` gives the outcome of the settlement fetch for the
submitted blob. -/
def x402Middleware (cfg : X402Config) (parseEvidence : Bytes → Option PaymentPayload)
    (kora : Bytes → KoraRpcOutcome) (req : MwRequest) : MwOutcome :=
  match cfg.routes.lookup (routeKey req) with
  | none =>
      { status := none, handlerCalls := 1, receipts := 0, settleAttempts := 0,
        settleSuccesses := 0, settledBlob := none, receipt := none,
        challengeHeader := none, paymentResponseHeader := none }
  | some price =>
    match req.paymentHeader with
    | none =>
        { status := some 402, handlerCalls := 0, receipts := 0, settleAttempts := 0,
          settleSuccesses := 0, settledBlob := none, receipt := none,
          challengeHeader := some (base64Encode (serializeJson (challengeJson cfg price))),
          paymentResponseHeader := none }
    | some hdr =>
      match parseEvidence hdr with
      | none =>
          { status := some 400, handlerCalls := 0, receipts := 0, settleAttempts := 0,
            settleSuccesses := 0, settledBlob := none, receipt := none,
            challengeHeader := none, paymentResponseHeader := none }
      | some payload =>
        match jsExtractTx payload with
        | none =>
            { status := some 400, handlerCalls := 0, receipts := 0, settleAttempts := 0,
              settleSuccesses := 0, settledBlob := none, receipt := none,
              challengeHeader := none, paymentResponseHeader := none }
        | some tx =>
          if tx.isEmpty then
            { status := some 400, handlerCalls := 0, receipts := 0, settleAttempts := 0,
              settleSuccesses := 0, settledBlob := none, receipt := none,
              challengeHeader := none, paymentResponseHeader := none }
          else
            match kora tx with
            | .transportFail =>
                { status := some 400, handlerCalls := 0, receipts := 0, settleAttempts := 1,
                  settleSuccesses := 0, settledBlob := some tx, receipt := none,
                  challengeHeader := none, paymentResponseHeader := none }
            | .rpcError _ =>
                { status := some 402, handlerCalls := 0, receipts := 0, settleAttempts := 1,
                  settleSuccesses := 0, settledBlob := some tx, receipt := none,
                  challengeHeader := none, paymentResponseHeader := none }
            | .ok signature =>
                { status := none, handlerCalls := 1, receipts := 1, settleAttempts := 1,
                  settleSuccesses := 1, settledBlob := some tx,
                  receipt := some { transactionHash := signature,
                                    network := strBytes "solana",
                                    amount := price.usdCents },
                  challengeHeader := none,
                  paymentResponseHeader :=
                    some (base64Encode (serializeJson (successJson signature))) }

/-! ## Base64 and serializer lemmas -/

theorem sextet_roundtrip : ∀ n : ℕ, n < 64 → sextetOfChar (charOfSextet n) = some n := by
  decide

theorem charOfSextet_ne_pad : ∀ n : ℕ, n < 64 → charOfSextet n ≠ '=' := by
  decide

/-- Base64 decoding inverts encoding on genuine byte strings. -/
theorem base64_roundtrip (bs : Bytes) (h : ∀ b ∈ bs, b < 256) :
    base64Decode (base64Encode bs) = some bs := by
  induction bs using base64Encode.induct with
  | case1 => rfl
  | case2 b1 =>
      have hb1 : b1 < 256 := h b1 (by simp)
      have h1 : b1 / 4 < 64 := by omega
      have h2 : b1 % 4 * 16 < 64 := by omega
      simp [base64Encode, base64Decode, sextet_roundtrip _ h1, sextet_roundtrip _ h2]
      omega
  | case3 b1 b2 =>
      have hb1 : b1 < 256 := h b1 (by simp)
      have hb2 : b2 < 256 := h b2 (by simp)
      have h1 : b1 / 4 < 64 := by omega
      have h2 : b1 % 4 * 16 + b2 / 16 < 64 := by omega
      have h3 : b2 % 16 * 4 < 64 := by omega
      have hpad : charOfSextet (b2 % 16 * 4) ≠ '=' := charOfSextet_ne_pad _ h3
      simp [base64Encode, base64Decode, hpad, sextet_roundtrip _ h1,
        sextet_roundtrip _ h2, sextet_roundtrip _ h3]
      omega
  | case4 b1 b2 b3 rest ih =>
      have hb1 : b1 < 256 := h b1 (by simp)
      have hb2 : b2 < 256 := h b2 (by simp)
      have hb3 : b3 < 256 := h b3 (by simp)
      have hrest : ∀ b ∈ rest, b < 256 := fun b hb => h b (by simp [hb])
      have h1 : b1 / 4 < 64 := by omega
      have h2 : b1 % 4 * 16 + b2 / 16 < 64 := by omega
      have h3 : b2 % 16 * 4 + b3 / 64 < 64 := by omega
      have h4 : b3 % 64 < 64 := by omega
      have hpad : charOfSextet (b3 % 64) ≠ '=' := charOfSextet_ne_pad _ h4
      simp [base64Encode, base64Decode, hpad, sextet_roundtrip _ h1,
        sextet_roundtrip _ h2, sextet_roundtrip _ h3, sextet_roundtrip _ h4, ih hrest]
      omega

theorem natDigits_lt (n : ℕ) : ∀ b ∈ natDigits n, b < 256 := by
  induction n using natDigits.induct with
  | case1 n hn =>
      intro b hb
      rw [natDigits, dif_pos hn] at hb
      simp at hb
      omega
  | case2 n hn ih =>
      intro b hb
      rw [natDigits, dif_neg hn] at hb
      rcases List.mem_append.mp hb with h1 | h2
      · exact ih b h1
      · simp at h2
        omega

theorem intDigits_lt (n : ℤ) : ∀ b ∈ intDigits n, b < 256 := by
  intro b hb
  unfold intDigits at hb
  split at hb
  · rcases List.mem_cons.mp hb with h1 | h2
    · omega
    · exact natDigits_lt _ b h2
  · exact natDigits_lt _ b hb

theorem escapeBytes_mem (s : Bytes) (b : ℕ) (hb : b ∈ escapeBytes s) :
    b ∈ s ∨ b = 92 := by
  induction s with
  | nil => simp [escapeBytes] at hb
  | cons a rest ih =>
      simp only [escapeBytes, List.mem_append] at hb
      rcases hb with h1 | h2
      · split at h1
        · rcases List.mem_cons.mp h1 with h | h
          · right; omega
          · left; simp at h; simp [h]
        · left; simp at h1; simp [h1]
      · rcases ih h2 with h | h
        · left; simp [h]
        · right; exact h

mutual

theorem serializeJson_lt (j : Json) (hv : jsonValid j = true) :
    ∀ b ∈ serializeJson j, b < 256 := by
  match j with
  | .str s =>
      intro b hb
      have hs : ∀ x ∈ s, x < 256 := by simpa [jsonValid] using hv
      rw [serializeJson] at hb
      rcases List.mem_cons.mp hb with h | h
      · omega
      rcases List.mem_append.mp h with h | h
      · rcases escapeBytes_mem s b h with h1 | h1
        · exact hs b h1
        · omega
      · simp at h; omega
  | .num n =>
      intro b hb
      exact intDigits_lt n b (by simpa [serializeJson] using hb)
  | .bool v =>
      intro b hb
      cases v <;> simp [serializeJson, strBytes] at hb <;> omega
  | .obj fields =>
      intro b hb
      rw [serializeJson] at hb
      rcases List.mem_cons.mp hb with h | h
      · omega
      rcases List.mem_append.mp h with h | h
      · exact serializeFields_lt fields (by simpa [jsonValid] using hv) b h
      · simp at h; omega

theorem serializeFields_lt (fs : List (Bytes × Json)) (hv : jsonFieldsValid fs = true) :
    ∀ b ∈ serializeFields fs, b < 256 := by
  match fs with
  | [] =>
      intro b hb
      simp [serializeFields] at hb
  | [(k, v)] =>
      intro b hb
      have hk : jsonFieldsValid [(k, v)] = true := hv
      simp only [jsonFieldsValid, Bool.and_eq_true] at hk
      have hkm : ∀ x ∈ k, x < 256 := by simpa using hk.1.1
      rw [serializeFields] at hb
      rcases List.mem_cons.mp hb with h | h
      · omega
      rcases List.mem_append.mp h with h | h
      · rcases List.mem_append.mp h with h | h
        · rcases escapeBytes_mem k b h with h1 | h1
          · exact hkm b h1
          · omega
        · simp at h; omega
      · exact serializeJson_lt v hk.1.2 b h
  | (k, v) :: (f2 :: rest) =>
      intro b hb
      have hk : jsonFieldsValid ((k, v) :: f2 :: rest) = true := hv
      rw [jsonFieldsValid] at hk
      have hk1 := (Bool.and_eq_true _ _).mp hk
      have hk2 := (Bool.and_eq_true _ _).mp hk1.1
      have hkm : ∀ x ∈ k, x < 256 := by simpa using hk2.1
      rw [serializeFields] at hb
      pick_goal 2
      · exact fun h => List.noConfusion h
      rcases List.mem_cons.mp hb with h | h
      · omega
      rcases List.mem_append.mp h with h | h
      · rcases List.mem_append.mp h with h | h
        · rcases List.mem_append.mp h with h | h
          · rcases escapeBytes_mem k b h with h1 | h1
            · exact hkm b h1
            · omega
          · simp at h; omega
        · exact serializeJson_lt v hk2.2 b h
      · rcases List.mem_cons.mp h with h | h
        · omega
        · exact serializeFields_lt (f2 :: rest) hk1.2 b h

end

/-! ## Concrete fixtures used by witnesses and counterexamples -/

/-- A sample priced route entry. -/
def sampleRoutePrice : RoutePrice :=
  ⟨1 / 2, strBytes "Get gasless swap quote"⟩

/-- A sample middleware configuration pricing `POST /gasless/quote`. -/
def sampleConfig : X402Config :=
  ⟨strBytes "PayToAddr111", [(strBytes "POST /gasless/quote", sampleRoutePrice)], none⟩

/-- A priced-route request without payment evidence. -/
def sampleReqNoHeader : MwRequest :=
  ⟨strBytes "POST", strBytes "/gasless/quote", none⟩

/-- A priced-route request carrying a payment header. -/
def sampleReqWithHeader : MwRequest :=
  ⟨strBytes "POST", strBytes "/gasless/quote", some (strBytes "AAAA")⟩

/-- A request to a route with no configured price. -/
def sampleReqFree : MwRequest :=
  ⟨strBytes "GET", strBytes "/", none⟩

/-- An evidence parser returning a well-formed payload. -/
def sampleParse : Bytes → Option PaymentPayload :=
  fun _ => some ⟨none, some (strBytes "tx")⟩

/-- An evidence parser modelling a `JSON.parse` throw. -/
def sampleParseFail : Bytes → Option PaymentPayload :=
  fun _ => none

/-- A sponsor accepting every settlement. -/
def sampleKoraOk : Bytes → KoraRpcOutcome :=
  fun _ => .ok (some (strBytes "sig"))

/-- A sponsor whose fetch fails at the transport level. -/
def sampleKoraTransportFail : Bytes → KoraRpcOutcome :=
  fun _ => .transportFail

/-- A sponsor rejecting every settlement. -/
def sampleKoraReject : Bytes → KoraRpcOutcome :=
  fun _ => .rpcError (strBytes "rejected")

/-! ## Helper lemmas -/

theorem configTokens_lookup_ne_empty (k m : String)
    (h : configTokens.lookup k = some m) : m.isEmpty = false := by
  simp only [configTokens, List.lookup] at h
  repeat' split at h
  all_goals simp_all
  all_goals subst h
  all_goals decide

/-! ## C5 -/

/-- C5: the quote builder converts a decimal amount to raw units as
`floor(a * 10^d)` and recovers the human amount as `raw / 10^d`, printed with
`toFixed(d)`; for any amount expressible with `d` decimal places (`a = n /
10^d`) the round trip reproduces `a` exactly, and the `toFixed(d)` rendering
of the recovered value has scaled digits exactly `n`, i.e. reproduces `a` to
`d` decimal places. -/
theorem amount_roundtrip (a : ℚ) (d : ℕ) (n : ℤ) (ha : a = (n : ℚ) / 10 ^ d) :
    fromRawAmount (toRawAmount a d) d = a ∧
    toFixedScaled (fromRawAmount (toRawAmount a d) d) d = n := by
  have h10 : (10 : ℚ) ^ d ≠ 0 := by positivity
  have hm : a * 10 ^ d = (n : ℚ) := by rw [ha]; field_simp
  have hraw : toRawAmount a d = n := by
    unfold toRawAmount; rw [hm]; exact Int.floor_intCast n
  have hfrom : fromRawAmount (toRawAmount a d) d = a := by
    unfold fromRawAmount; rw [hraw, ha]
  refine ⟨hfrom, ?_⟩
  unfold toFixedScaled
  rw [hfrom, hm]
  have hsplit : (n : ℚ) + 1 / 2 = 1 / 2 + (n : ℚ) := by ring
  rw [hsplit, Int.floor_add_int]
  norm_num

/-- Witness for C5 at `a = 0.03`, `d = 6`, `n = 30000`. -/
theorem amount_roundtrip_witness :
    fromRawAmount (toRawAmount (3 / 100) 6) 6 = 3 / 100 ∧
    toFixedScaled (fromRawAmount (toRawAmount (3 / 100) 6) 6) 6 = 30000 :=
  amount_roundtrip (3 / 100) 6 30000 (by norm_num)

/-! ## C7 -/

/-- C7: symbol resolution is case-insensitive on registry symbols (any two
strings with the same uppercasing resolve identically whenever the lookup
hits the registry), `usdc` and `USDC` resolve to the USDC mint, and a string
whose uppercasing misses the registry resolves to itself unchanged. -/
theorem resolveMint_spec :
    (∀ s t : String, jsToUpperCase s = jsToUpperCase t → (getTokenMint s).isSome →
      resolveMint s = resolveMint t) ∧
    resolveMint "usdc" = resolveMint "USDC" ∧
    resolveMint "USDC" = "EPjFWdd5AufqSSqeM2qN1xzybapC8G4wEGGkZwyTDt1v" ∧
    (∀ s : String, getTokenMint s = none → resolveMint s = s) := by
  refine ⟨?_, by decide, by decide, ?_⟩
  · intro s t hup hsome
    obtain ⟨m, hm⟩ := Option.isSome_iff_exists.mp hsome
    have ht : getTokenMint t = some m := by
      unfold getTokenMint at hm ⊢; rw [← hup]; exact hm
    have hne : m.isEmpty = false :=
      configTokens_lookup_ne_empty (jsToUpperCase s) m hm
    unfold resolveMint jsOrString
    rw [hm, ht]
    simp [hne]
  · intro s h
    unfold resolveMint jsOrString
    rw [h]

/-- Witness for C7 at `SOL` case variants and an unknown symbol. -/
theorem resolveMint_spec_witness :
    resolveMint "Sol" = resolveMint "SOL" ∧ resolveMint "zzznotatoken" = "zzznotatoken" :=
  ⟨resolveMint_spec.1 "Sol" "SOL" (by decide) (by decide),
   resolveMint_spec.2.2.2 "zzznotatoken" (by decide)⟩

/-! ## C9 -/

/-- C9: the claim requires a submission after the quote expiry (or with an
unparsable signature) to transition to FAILED and never reach the fee
sponsor.  The code has no such check: `executeGaslessSwap` forwards every
submitted blob to the Kora `signAndSendTransaction` call unconditionally —
even when the current time is past the `expiresAt` of any issued quote — and
processes the result normally.  This evaluates the code on the failing
input. -/
theorem executeGaslessSwap_forwards_stale (rpc : String → Option KoraSendResult)
    (req : GaslessSwapRequest) (s : String) (issuedAt now : ℤ)
    (hstale : quoteExpiresAt issuedAt < now) :
    (executeGaslessSwap rpc req s).2 = [s] ∧
    (executeGaslessSwap rpc req s).1 =
      (rpc s).map (fun r => ⟨r.signature, "https://solscan.io/tx/" ++ r.signature⟩) :=
  ⟨rfl, rfl⟩

/-- Witness for C9: a submission 31 seconds after quote issuance is still
forwarded to the sponsor. -/
theorem executeGaslessSwap_forwards_stale_witness :
    (executeGaslessSwap (fun _ => none)
      ⟨"inM", "outM", "1", "wallet", none, none⟩ "signedTx").2 = ["signedTx"] :=
  (executeGaslessSwap_forwards_stale (fun _ => none)
    ⟨"inM", "outM", "1", "wallet", none, none⟩ "signedTx" 0 31000 (by decide)).1

/-! ## C8 -/

theorem decimalsCallSeq_cached (n : ℕ) (c : List (String × ℕ))
    (led : String → Option ℕ) (m : String) (e : ℕ)
    (hc : c.lookup m = some e) (he : e ≠ 0) :
    decimalsCallSeq n c led m = (c, 0) := by
  induction n with
  | zero => rfl
  | succ n ih =>
      have hg : getTokenDecimals c led m = (some e, c, false) := by
        unfold getTokenDecimals; rw [hc]; simp [he]
      simp only [decimalsCallSeq, hg, ih]
      rfl

/-- C8 counterexample: the claim that at most one remote lookup is ever
issued per identifier fails in both cited variants.  In the jupiter.ts
variant the cache guard `if (TOKEN_DECIMALS[mint])` tests JavaScript
truthiness, so a mint whose ledger decimals are `0` is fetched remotely on
every call (two calls issue two remote lookups) and a cached value of `0` is
refetched rather than returned; in the raydium.ts variant the fetched value
is never stored, so even a mint with nonzero decimals is fetched remotely on
every call. -/
theorem getTokenDecimals_cache_counterexample :
    (decimalsCallSeq 2 initialDecimalsCache
      (fun m => if m = "M0" then some 0 else none) "M0").2 = 2 ∧
    (getTokenDecimals [("M0", 0)] (fun _ => none) "M0").2.2 = true ∧
    (decimalsCallSeqRaydium 2 initialDecimalsCache
      (fun m => if m = "M5" then some 5 else none) "M5").2 = 2 := by
  refine ⟨rfl, rfl, rfl⟩

/-- C8 amended: both variants return a cached value without a remote call
when one is present and nonzero.  The jupiter.ts variant stores the fetched
value, so provided the decimals value of the identifier is nonzero (in the
cache and at the ledger) any sequence of calls issues at most one remote
lookup; a decimals value of `0` defeats the truthiness-based cache guard and
triggers a remote lookup on every call.  The raydium.ts variant never stores
the fetched value, so for a mint absent from its static table every one of
`n` calls issues a remote lookup. -/
theorem getTokenDecimals_cache_amended (c : List (String × ℕ))
    (led : String → Option ℕ) (m : String) (d : ℕ) (n : ℕ)
    (hled : led m = some d) (hd : d ≠ 0)
    (hc : ∀ e, c.lookup m = some e → e ≠ 0) :
    ((decimalsCallSeq n c led m).2 ≤ 1 ∧
     (∀ e, c.lookup m = some e →
        getTokenDecimals c led m = (some e, c, false) ∧
        getTokenDecimalsRaydium c led m = (some e, c, false))) ∧
    (c.lookup m = none → (decimalsCallSeqRaydium n c led m).2 = n) := by
  refine ⟨⟨?_, ?_⟩, ?_⟩
  · cases hcc : c.lookup m with
    | some e =>
        rw [decimalsCallSeq_cached n c led m e hcc (hc e hcc)]
        norm_num
    | none =>
        cases n with
        | zero => simp [decimalsCallSeq]
        | succ n =>
            have hg : getTokenDecimals c led m = (some d, (m, d) :: c, true) := by
              unfold getTokenDecimals fetchDecimals; rw [hcc, hled]
            have hl2 : ((m, d) :: c).lookup m = some d := by
              simp [List.lookup]
            have hrest := decimalsCallSeq_cached n ((m, d) :: c) led m d hl2 hd
            simp [decimalsCallSeq, hg, hrest]
  · intro e he
    constructor
    · unfold getTokenDecimals; rw [he]; simp [hc e he]
    · unfold getTokenDecimalsRaydium; rw [he]; simp [hc e he]
  · intro hcc
    induction n with
    | zero => rfl
    | succ n ih =>
        have hg : getTokenDecimalsRaydium c led m = (some d, c, true) := by
          unfold getTokenDecimalsRaydium fetchDecimalsNoStore
          rw [hcc, hled]
        simp [decimalsCallSeqRaydium, hg, ih]
        omega

/-- Witness for C8 amended: three calls for a fresh mint with nonzero
decimals issue at most one remote lookup in the jupiter.ts variant and
exactly three in the raydium.ts variant. -/
theorem getTokenDecimals_cache_amended_witness :
    (decimalsCallSeq 3 initialDecimalsCache (fun _ => some 7) "FreshMint").2 ≤ 1 ∧
    (decimalsCallSeqRaydium 3 initialDecimalsCache (fun _ => some 7) "FreshMint").2 = 3 :=
  ⟨(getTokenDecimals_cache_amended initialDecimalsCache (fun _ => some 7)
      "FreshMint" 7 3 rfl (by decide)
      (by intro e h; simp [initialDecimalsCache, List.lookup] at h)).1.1,
   (getTokenDecimals_cache_amended initialDecimalsCache (fun _ => some 7)
      "FreshMint" 7 3 rfl (by decide)
      (by intro e h; simp [initialDecimalsCache, List.lookup] at h)).2 rfl⟩

/-! ## C6 -/

theorem jupiterRouteLabels_sublist (l : List String) :
    List.Sublist (jupiterRouteLabels l) l := by
  have h := (List.filter_sublist (l := l.enum)
    (p := fun p => l.indexOf p.2 == p.1)).map Prod.snd
  rwa [List.enum_map_snd] at h

theorem jupiterRouteLabels_pairwise (l : List String) :
    (jupiterRouteLabels l).Pairwise (fun x y => l.indexOf x < l.indexOf y) := by
  have h1 : (List.range l.length).Pairwise (· < ·) := List.pairwise_lt_range _
  rw [← List.enum_map_fst] at h1
  have h2 : l.enum.Pairwise (fun p q => p.1 < q.1) := List.pairwise_map.mp h1
  have h3 := h2.filter (fun p => l.indexOf p.2 == p.1)
  have h4 : (l.enum.filter fun p => l.indexOf p.2 == p.1).Pairwise
      (fun p q => l.indexOf p.2 < l.indexOf q.2) := by
    refine List.Pairwise.imp_of_mem ?_ h3
    intro p q hp hq hlt
    have hp2 := (List.mem_filter.mp hp).2
    have hq2 := (List.mem_filter.mp hq).2
    have hp3 : l.indexOf p.2 = p.1 := by simpa using hp2
    have hq3 : l.indexOf q.2 = q.1 := by simpa using hq2
    omega
  exact List.pairwise_map.mpr h4

theorem jupiterRouteLabels_mem (l : List String) (x : String) :
    x ∈ jupiterRouteLabels l ↔ x ∈ l := by
  constructor
  · intro hx
    exact (jupiterRouteLabels_sublist l).subset hx
  · intro hx
    have hget : l[l.indexOf x]? = some x := List.getElem?_indexOf hx
    have henum : (l.indexOf x, x) ∈ l.enum := List.mk_mem_enum_iff_getElem?.mpr hget
    have hkeep : (l.indexOf x, x) ∈ l.enum.filter (fun p => l.indexOf p.2 == p.1) :=
      List.mem_filter.mpr ⟨henum, by simp⟩
    exact List.mem_map.mpr ⟨_, hkeep, rfl⟩

theorem jupiterRouteLabels_nodup (l : List String) :
    (jupiterRouteLabels l).Nodup := by
  refine (jupiterRouteLabels_pairwise l).imp ?_
  intro a b hlt heq
  subst heq
  omega

/-- C6: the route description joins the venue labels with duplicates
collapsed: the deduplicated label list is a subsequence of the input, has no
duplicates, contains exactly the labels of the input, and lists them in order
of first occurrence (their first-occurrence indices are strictly
increasing); in particular the labels `[A, A, B, A]` produce the description
`A → B`. -/
theorem routeDescription_spec :
    (∀ l : List String,
      List.Sublist (jupiterRouteLabels l) l ∧
      (jupiterRouteLabels l).Nodup ∧
      (∀ x, x ∈ jupiterRouteLabels l ↔ x ∈ l) ∧
      (jupiterRouteLabels l).Pairwise (fun x y => l.indexOf x < l.indexOf y)) ∧
    routeDescription ["A", "A", "B", "A"] = "A → B" := by
  refine ⟨fun l => ⟨jupiterRouteLabels_sublist l, jupiterRouteLabels_nodup l,
    jupiterRouteLabels_mem l, jupiterRouteLabels_pairwise l⟩, ?_⟩
  rfl

/-! ## C10 -/

/-- C10: `executeGaslessSwap` never reads its request argument: for any two
requests and the same signed transaction the result (signature, explorer URL
and the blobs submitted to the sponsor) is identical. -/
theorem executeGaslessSwap_ignores_request (rpc : String → Option KoraSendResult)
    (r1 r2 : GaslessSwapRequest) (s : String) :
    executeGaslessSwap rpc r1 s = executeGaslessSwap rpc r2 s :=
  rfl

/-! ## C1 -/

/-- C1: on a priced route the middleware attempts settlement at most once,
every settlement success is a settlement attempt, the downstream handler is
invoked exactly as many times as settlement succeeded (so exactly once after
a successful settlement and never after a failed or absent one), and exactly
one receipt is attached per successful settlement and none otherwise. -/
theorem x402_gate (cfg : X402Config) (parse : Bytes → Option PaymentPayload)
    (kora : Bytes → KoraRpcOutcome) (req : MwRequest) (price : RoutePrice)
    (hp : cfg.routes.lookup (routeKey req) = some price) :
    (x402Middleware cfg parse kora req).settleAttempts ≤ 1 ∧
    (x402Middleware cfg parse kora req).settleSuccesses ≤
      (x402Middleware cfg parse kora req).settleAttempts ∧
    (x402Middleware cfg parse kora req).handlerCalls =
      (x402Middleware cfg parse kora req).settleSuccesses ∧
    (x402Middleware cfg parse kora req).receipts =
      (x402Middleware cfg parse kora req).settleSuccesses := by
  unfold x402Middleware
  rw [hp]
  cases hh : req.paymentHeader with
  | none => simp
  | some hdr =>
      cases hparse : parse hdr with
      | none => simp [hparse]
      | some payload =>
          cases htx : jsExtractTx payload with
          | none => simp [hparse, htx]
          | some tx =>
              cases hemp : tx.isEmpty
              · cases hk : kora tx <;> simp [hparse, htx, hemp, hk]
              · simp [hparse, htx, hemp]

/-- Witness for C1: a priced request with valid evidence and an accepting
sponsor. -/
theorem x402_gate_witness :
    (x402Middleware sampleConfig sampleParse sampleKoraOk sampleReqWithHeader).settleAttempts ≤ 1 ∧
    (x402Middleware sampleConfig sampleParse sampleKoraOk sampleReqWithHeader).handlerCalls =
      (x402Middleware sampleConfig sampleParse sampleKoraOk sampleReqWithHeader).settleSuccesses :=
  ⟨(x402_gate sampleConfig sampleParse sampleKoraOk sampleReqWithHeader
      sampleRoutePrice rfl).1,
   (x402_gate sampleConfig sampleParse sampleKoraOk sampleReqWithHeader
      sampleRoutePrice rfl).2.2.1⟩

/-! ## C2 -/

theorem challengeJson_valid (cfg : X402Config) (price : RoutePrice)
    (hp : ∀ b ∈ cfg.payTo, b < 256) (hd : ∀ b ∈ price.description, b < 256)
    (he : ∀ env, cfg.koraFeePayerEnv = some env → ∀ b ∈ env, b < 256) :
    jsonValid (challengeJson cfg price) = true := by
  simp only [challengeJson, jsonValid, jsonFieldsValid, Bool.and_eq_true,
    List.all_eq_true, decide_eq_true_eq]
  repeat' apply And.intro
  all_goals try decide
  all_goals try exact fun b hb => hp b hb
  all_goals try exact fun b hb => hd b hb
  all_goals try exact fun b hb => intDigits_lt _ b hb
  cases henv : cfg.koraFeePayerEnv with
  | none =>
      simp [jsTruthyBytes]
      exact fun b hb => hp b hb
  | some env =>
      by_cases hte : env.isEmpty
      · simp [jsTruthyBytes, hte]
        exact fun b hb => hp b hb
      · simp [jsTruthyBytes, hte]
        exact fun b hb => he env henv b hb

/-- C2: on a priced route without a payment header the middleware responds
402, does not invoke the downstream handler, and sets the challenge header to
the base64 encoding of the serialized `paymentRequirements` JSON object,
which decodes back to that JSON and contains `scheme`, `network`, `payTo`,
`amount`, `asset`, `description`, `maxTimeoutSeconds` and a nested
`extra.feePayer`; a request to a route with no configured price passes
through to the handler with no status set. -/
theorem x402_challenge :
    (∀ (cfg : X402Config) (parse : Bytes → Option PaymentPayload)
       (kora : Bytes → KoraRpcOutcome) (req : MwRequest) (price : RoutePrice),
      cfg.routes.lookup (routeKey req) = some price →
      req.paymentHeader = none →
      (∀ b ∈ cfg.payTo, b < 256) →
      (∀ b ∈ price.description, b < 256) →
      (∀ env, cfg.koraFeePayerEnv = some env → ∀ b ∈ env, b < 256) →
      (x402Middleware cfg parse kora req).status = some 402 ∧
      (x402Middleware cfg parse kora req).handlerCalls = 0 ∧
      (x402Middleware cfg parse kora req).challengeHeader =
        some (base64Encode (serializeJson (challengeJson cfg price))) ∧
      base64Decode (base64Encode (serializeJson (challengeJson cfg price))) =
        some (serializeJson (challengeJson cfg price)) ∧
      jsonLookup (challengeJson cfg price) (strBytes "scheme") =
        some (.str (strBytes "exact")) ∧
      jsonLookup (challengeJson cfg price) (strBytes "network") =
        some (.str (strBytes "solana")) ∧
      jsonLookup (challengeJson cfg price) (strBytes "payTo") =
        some (.str cfg.payTo) ∧
      jsonLookup (challengeJson cfg price) (strBytes "amount") =
        some (.str (intDigits (amountAtomicUnits price.usdCents))) ∧
      jsonLookup (challengeJson cfg price) (strBytes "asset") =
        some (.str usdcMintBytes) ∧
      jsonLookup (challengeJson cfg price) (strBytes "description") =
        some (.str price.description) ∧
      jsonLookup (challengeJson cfg price) (strBytes "maxTimeoutSeconds") =
        some (.num 60) ∧
      (∃ fp, jsonLookup (challengeJson cfg price) (strBytes "extra") =
        some (.obj [(strBytes "feePayer", .str fp)]))) ∧
    (∀ (cfg : X402Config) (parse : Bytes → Option PaymentPayload)
       (kora : Bytes → KoraRpcOutcome) (req : MwRequest),
      cfg.routes.lookup (routeKey req) = none →
      (x402Middleware cfg parse kora req).handlerCalls = 1 ∧
      (x402Middleware cfg parse kora req).status = none) := by
  constructor
  · intro cfg parse kora req price hp hh hbp hbd hbe
    have hdec : base64Decode (base64Encode (serializeJson (challengeJson cfg price))) =
        some (serializeJson (challengeJson cfg price)) :=
      base64_roundtrip _ (serializeJson_lt _ (challengeJson_valid cfg price hbp hbd hbe))
    refine ⟨?_, ?_, ?_, hdec, rfl, rfl, rfl, rfl, rfl, rfl, rfl, ⟨_, rfl⟩⟩
    all_goals unfold x402Middleware
    all_goals rw [hp, hh]
  · intro cfg parse kora req hp
    constructor
    all_goals unfold x402Middleware
    all_goals rw [hp]

/-- Witness for C2 at the sample configuration: the missing-evidence branch
responds 402 without invoking the handler, and an unpriced route passes
through. -/
theorem x402_challenge_witness :
    ((x402Middleware sampleConfig sampleParse sampleKoraOk sampleReqNoHeader).status =
      some 402 ∧
     (x402Middleware sampleConfig sampleParse sampleKoraOk sampleReqNoHeader).handlerCalls =
      0) ∧
    (x402Middleware sampleConfig sampleParse sampleKoraOk sampleReqFree).handlerCalls = 1 := by
  have h1 := x402_challenge.1 sampleConfig sampleParse sampleKoraOk sampleReqNoHeader
    sampleRoutePrice rfl rfl (by decide) (by decide)
    (by intro env henv; exact Option.noConfusion henv)
  exact ⟨⟨h1.1, h1.2.1⟩,
    (x402_challenge.2 sampleConfig sampleParse sampleKoraOk sampleReqFree rfl).1⟩

/-! ## C3 -/

/-- C3: on a priced route with a payment header, a failed decode responds
400 (never 402) without invoking the handler or attempting settlement; a
decoded payload without a truthy transaction blob (taken from
`payload.transaction` falling back to the top-level `transaction`) likewise
responds 400; when a nonempty blob is present it is exactly the extracted
one that is submitted for settlement. -/
theorem x402_evidence (cfg : X402Config) (parse : Bytes → Option PaymentPayload)
    (kora : Bytes → KoraRpcOutcome) (req : MwRequest) (price : RoutePrice)
    (hdr : Bytes) (hp : cfg.routes.lookup (routeKey req) = some price)
    (hh : req.paymentHeader = some hdr) :
    (parse hdr = none →
      (x402Middleware cfg parse kora req).status = some 400 ∧
      (x402Middleware cfg parse kora req).status ≠ some 402 ∧
      (x402Middleware cfg parse kora req).handlerCalls = 0 ∧
      (x402Middleware cfg parse kora req).settleAttempts = 0) ∧
    (∀ payload, parse hdr = some payload →
      (jsExtractTx payload = none →
        (x402Middleware cfg parse kora req).status = some 400 ∧
        (x402Middleware cfg parse kora req).status ≠ some 402 ∧
        (x402Middleware cfg parse kora req).handlerCalls = 0 ∧
        (x402Middleware cfg parse kora req).settleAttempts = 0) ∧
      (∀ tx, jsExtractTx payload = some tx → tx.isEmpty = true →
        (x402Middleware cfg parse kora req).status = some 400 ∧
        (x402Middleware cfg parse kora req).status ≠ some 402 ∧
        (x402Middleware cfg parse kora req).handlerCalls = 0 ∧
        (x402Middleware cfg parse kora req).settleAttempts = 0) ∧
      (∀ tx, jsExtractTx payload = some tx → tx.isEmpty = false →
        (x402Middleware cfg parse kora req).settledBlob = some tx)) := by
  constructor
  · intro hparse
    simp [x402Middleware, hp, hh, hparse]
  · intro payload hparse
    refine ⟨?_, ?_, ?_⟩
    · intro htx
      simp [x402Middleware, hp, hh, hparse, htx]
    · intro tx htx hemp
      simp [x402Middleware, hp, hh, hparse, htx, hemp]
    · intro tx htx hemp
      cases hk : kora tx <;> simp [x402Middleware, hp, hh, hparse, htx, hemp, hk]

/-- Witness for C3: a header whose decode throws yields 400 on the sample
configuration. -/
theorem x402_evidence_witness :
    (x402Middleware sampleConfig sampleParseFail sampleKoraOk sampleReqWithHeader).status =
      some 400 :=
  ((x402_evidence sampleConfig sampleParseFail sampleKoraOk sampleReqWithHeader
    sampleRoutePrice (strBytes "AAAA") rfl rfl).1 rfl).1

/-! ## C4 -/

/-- C4 counterexample: with valid evidence and a transport failure reaching
the sponsor, the middleware responds 400 — the same bad-request outcome as a
malformed evidence header — rather than the distinct 5xx upstream-unavailable
outcome the claim requires (the `catch` at x402-middleware.ts line 127
swallows fetch failures). -/
theorem x402_transport_counterexample :
    (x402Middleware sampleConfig sampleParse sampleKoraTransportFail
      sampleReqWithHeader).status = some 400 ∧
    (x402Middleware sampleConfig sampleParseFail sampleKoraOk
      sampleReqWithHeader).status = some 400 := by
  constructor <;> rfl

/-- C4 amended: a sponsor-reported rejection of the settlement maps to 402
with the rejection reason (distinct from the 400 validation outcome), but a
transport failure reaching the sponsor is caught by the generic evidence
error handler and maps to the same 400 bad-request outcome as malformed
evidence, not to a distinct 5xx. -/
theorem x402_settlement_outcomes (cfg : X402Config)
    (parse : Bytes → Option PaymentPayload) (kora : Bytes → KoraRpcOutcome)
    (req : MwRequest) (price : RoutePrice) (hdr : Bytes) (payload : PaymentPayload)
    (tx : Bytes) (hp : cfg.routes.lookup (routeKey req) = some price)
    (hh : req.paymentHeader = some hdr) (hparse : parse hdr = some payload)
    (htx : jsExtractTx payload = some tx) (hemp : tx.isEmpty = false) :
    (∀ msg, kora tx = .rpcError msg →
      (x402Middleware cfg parse kora req).status = some 402 ∧
      (x402Middleware cfg parse kora req).handlerCalls = 0) ∧
    (kora tx = .transportFail →
      (x402Middleware cfg parse kora req).status = some 400 ∧
      (x402Middleware cfg parse kora req).handlerCalls = 0) := by
  constructor
  · intro msg hk
    simp [x402Middleware, hp, hh, hparse, htx, hemp, hk]
  · intro hk
    simp [x402Middleware, hp, hh, hparse, htx, hemp, hk]

/-- Witness for C4 amended: a rejecting sponsor yields 402, a transport
failure yields 400, on the sample configuration. -/
theorem x402_settlement_outcomes_witness :
    (x402Middleware sampleConfig sampleParse sampleKoraReject
      sampleReqWithHeader).status = some 402 ∧
    (x402Middleware sampleConfig sampleParse sampleKoraTransportFail
      sampleReqWithHeader).status = some 400 :=
  ⟨((x402_settlement_outcomes sampleConfig sampleParse sampleKoraReject
      sampleReqWithHeader sampleRoutePrice (strBytes "AAAA")
      ⟨none, some (strBytes "tx")⟩ (strBytes "tx") rfl rfl rfl rfl rfl).1
      (strBytes "rejected") rfl).1,
   ((x402_settlement_outcomes sampleConfig sampleParse sampleKoraTransportFail
      sampleReqWithHeader sampleRoutePrice (strBytes "AAAA")
      ⟨none, some (strBytes "tx")⟩ (strBytes "tx") rfl rfl rfl rfl rfl).2 rfl).1⟩

end X402
